import Mathlib

/-!
Verification of the vkd3d patch engine.

This file gives a shallow embedding of the patch engine found in
`src/patches/core.py`, `src/patches/profiles.py`, `src/patches/patcher.py`
and `src/scripts/patcher.py`, and proves or refutes the specification's
claims about it.

The engine applies regular-expression rewrite rules to file content.  Every
pattern the program compiles has one of two fixed shapes:

* `mk_asgn(var)` (src/patches/core.py, lines 47-49) builds
  `(?<![=!<>])(\bvar\s*=\s*)(?![=])([^;]+);` and the replacement template is
  always `\g<1>VALUE;` for a fixed literal `VALUE`;
* `mk_def(macro)` (src/patches/core.py, lines 52-53) builds
  `#define\s+macro\s+\d+`, used either bare (the `CP_P` group) or with an
  extra `\s+1` appended (the `PF_P` group, src/patches/profiles.py 82-86).

The matchers below (`asgnTry`, `defTry`) implement Python `re` semantics for
exactly these two shapes: leftmost non-overlapping matching, greedy `\s*` /
`\s+` / `\d+` / `[^;]+` with backtracking, the single-character negative
lookbehind `(?<![=!<>])`, the word boundary `\b` (every variable in the rule
tables starts with a word character, so `\b` holds iff the preceding
character is absent or is not a word character), and the negative lookahead
`(?![=])`.  Greedy runs over single-character classes backtrack one
character at a time until the rest of the pattern matches, which for these
shapes resolves deterministically (verified case by case in the comments at
the relevant definitions).
-/

/-- Python `\s` on the ASCII range (the file contents handled here). -/
def pyWs (c : Char) : Bool :=
  c == ' ' || c == '\t' || c == '\n' || c == '\r' || c == '\x0b' || c == '\x0c'

/-- Python `\w` on the ASCII range. -/
def pyWord (c : Char) : Bool :=
  c.isAlphanum || c == '_'

/-- Split a list into its maximal prefix of characters satisfying `p` and
the rest (the greedy run of a single-character class). -/
def splitRun (p : Char → Bool) : List Char → List Char × List Char
  | [] => ([], [])
  | c :: cs =>
    if p c then
      let r := splitRun p cs
      (c :: r.1, r.2)
    else ([], c :: cs)

/-- Tail of an `mk_asgn` match: the greedy `([^;]+);` part.  `g1` is the text
already captured by group 1; `body0` is the input from the start of the
body.  Returns the group-1 text and the input after the terminating `;`. -/
def asgnFinish (g1 body0 : List Char) : Option (List Char × List Char) :=
  let b := splitRun (fun c => !(c == ';')) body0
  if b.1.isEmpty then none
  else
    match b.2 with
    | ';' :: r6 => some (g1, r6)
    | _ => none

/-- One attempted match of `(?<![=!<>])(\bvar\s*=\s*)(?![=])([^;]+);`
(the pattern built by `mk_asgn`, src/patches/core.py 47-49) at the current
position.  `prev` is the character immediately before the position (`none`
at the start of the string).  Returns `some (g1, rest)` where `g1` is the
text captured by group 1 and `rest` is the input after the whole match.

Backtracking of the second `\s*` against the `(?![=])` lookahead and the
non-empty `[^;]+` body: with `ws2` the maximal whitespace run after `=`, if
the next character is `=` or `;` the engine gives back one whitespace
character (giving it back makes the lookahead see a whitespace character
and the body non-empty); if `ws2` is empty it fails.  Giving back further
characters can never turn a failure of `asgnFinish` into a success, because
it only prepends whitespace to the body and the body's terminating `;` is
found or missed independently of that. -/
def asgnTry (var : List Char) (prev : Option Char) (s : List Char) :
    Option (List Char × List Char) :=
  if prev.any (fun c => c == '=' || c == '!' || c == '<' || c == '>') then none
  else if prev.any pyWord then none
  else if var.isPrefixOf s then
    let w1 := splitRun pyWs (s.drop var.length)
    match w1.2 with
    | [] => none
    | c1 :: r3 =>
      if c1 == '=' then
        let w2 := splitRun pyWs r3
        match w2.2 with
        | [] => none
        | c2 :: t2 =>
          if c2 == '=' || c2 == ';' then
            if w2.1.isEmpty then none
            else asgnFinish (var ++ w1.1 ++ '=' :: w2.1.dropLast)
                   (w2.1.getLastD ' ' :: c2 :: t2)
          else asgnFinish (var ++ w1.1 ++ '=' :: w2.1) (c2 :: t2)
      else none
  else none

/-- The literal `#define`. -/
def defineLit : List Char := ['#', 'd', 'e', 'f', 'i', 'n', 'e']

/-- One attempted match of `#define\s+mac\s+\d+` (the pattern built by
`mk_def`, src/patches/core.py 52-53), with `\s+1` appended when `suffix1`
is true (the `PF_P` rules, src/patches/profiles.py 82-86).  Returns the last
character of the match and the input after the match.  Greedy `\d+` and
`\s+` need no backtracking here: giving back a digit makes `\s+` face a
digit, and giving back a whitespace character makes the literal `1` face a
whitespace character, so shorter runs always fail. -/
def defTry (mac : List Char) (suffix1 : Bool) (s : List Char) :
    Option (Char × List Char) :=
  if defineLit.isPrefixOf s then
    let r1 := s.drop defineLit.length
    let w1 := splitRun pyWs r1
    if w1.1.isEmpty then none
    else if mac.isPrefixOf w1.2 then
      let r3 := w1.2.drop mac.length
      let w2 := splitRun pyWs r3
      if w2.1.isEmpty then none
      else
        let d := splitRun Char.isDigit w2.2
        if d.1.isEmpty then none
        else if suffix1 then
          let w3 := splitRun pyWs d.2
          if w3.1.isEmpty then none
          else
            match w3.2 with
            | '1' :: r7 => some ('1', r7)
            | _ => none
        else some (d.1.getLastD '0', d.2)
    else none
  else none

/-- A compiled rule of the engine.  Every entry of the rule tables in
src/patches/profiles.py is either an assignment rule
(pattern `mk_asgn var`, replacement `\g<1>val;`) or a define rule
(pattern `mk_def mac`, plus `\s+1` when `suffix1`, plain replacement
text `repl`).  The last field is the rule's report name. -/
inductive Rule where
  | asgn (var val nm : String)
  | defR (mac : String) (suffix1 : Bool) (repl nm : String)
deriving DecidableEq

/-- The rule's report name (third component of the source triples). -/
def ruleName : Rule → String
  | .asgn _ _ nm => nm
  | .defR _ _ _ nm => nm

/-- Attempt a match of rule `r` at the current position; on success return
the replacement text for the matched span, the last character of the
matched span (the character the scan resumes after), and the rest of the
input.  For an assignment rule the replacement template `\g<1>val;`
expands to the group-1 text followed by the literal value and `;`. -/
def ruleTry (r : Rule) (prev : Option Char) (s : List Char) :
    Option (List Char × Char × List Char) :=
  match r with
  | .asgn var val _ =>
    match asgnTry var.data prev s with
    | some (g1, rest) => some (g1 ++ val.data ++ [';'], ';', rest)
    | none => none
  | .defR mac suffix1 repl _ =>
    match defTry mac.data suffix1 s with
    | some (lastc, rest) => some (repl.data, lastc, rest)
    | none => none

/-- Left-to-right scan of the input, matching rule `r` at each position
(Python `re.findall` / `re.sub`: leftmost, non-overlapping).  Returns the
number of matches and the substituted text.  `fuel` bounds the recursion;
`scanRule` supplies `s.length`, which suffices because every match of the
patterns here consumes at least one character. -/
def scanGo (r : Rule) : Nat → Option Char → List Char → Nat × List Char
  | 0, _, s => (0, s)
  | fuel + 1, prev, s =>
    match s with
    | [] => (0, [])
    | c :: cs =>
      match ruleTry r prev (c :: cs) with
      | some (out, lastc, rest) =>
        let k := scanGo r fuel (some lastc) rest
        (k.1 + 1, out ++ k.2)
      | none =>
        let k := scanGo r fuel (some c) cs
        (k.1, c :: k.2)

/-- `len(rgx.findall(content))` and `rgx.sub(repl, content)` for rule `r`,
computed by one scan (both walk the same match sequence). -/
def scanRule (r : Rule) (s : List Char) : Nat × List Char :=
  scanGo r s.length none s

/-- Return value of `V3XPatcher._apply_content`
(src/patches/patcher.py 46-63): the (possibly) rewritten content, the
applied and skipped counters and the change records. -/
structure ApplyOut where
  text : List Char
  applied : Nat
  skipped : Nat
  changes : List (String × Nat)
deriving DecidableEq

/-- `V3XPatcher._apply_content` (src/patches/patcher.py 46-63): for each
rule in order, count the matches `m` of its pattern in the current content;
if `m > 0`, substitute (only when not in dry-run mode), add `m` to
`applied` and record a change entry; otherwise increment `skipped`.  All
patterns of the program compile, so the `re.error` branch is unreachable
and is not modelled. -/
def applyContent (dry : Bool) (content : List Char) : List Rule → ApplyOut
  | [] => ⟨content, 0, 0, []⟩
  | r :: rs =>
    let ms := scanRule r content
    if 0 < ms.1 then
      let rest := applyContent dry (if dry then content else ms.2) rs
      ⟨rest.text, ms.1 + rest.applied, rest.skipped, (ruleName r, ms.1) :: rest.changes⟩
    else
      let rest := applyContent dry content rs
      ⟨rest.text, rest.applied, rest.skipped + 1, rest.changes⟩

/-- A per-file change record appended by `V3XPatcher._apply_file`
(src/patches/patcher.py 79): basename, full path, change list. -/
structure FileDetail where
  f : String
  p : String
  ch : List (String × Nat)
deriving DecidableEq

/-- `PatchResult` (src/patches/core.py 13-32). -/
structure PatchResult where
  applied : Nat
  skipped : Nat
  failed : Nat
  errors : List String
  warnings : List String
  details : List FileDetail
deriving DecidableEq

/-- `PatchResult.merge` (src/patches/core.py 22-28), as a function from the
two operands to the updated accumulator: counters are summed, sequences are
concatenated in order. -/
def PatchResult.merge (a b : PatchResult) : PatchResult :=
  { applied := a.applied + b.applied
    skipped := a.skipped + b.skipped
    failed := a.failed + b.failed
    errors := a.errors ++ b.errors
    warnings := a.warnings ++ b.warnings
    details := a.details ++ b.details }

/-- `PatchResult.success` (src/patches/core.py 30-32). -/
def PatchResult.success (r : PatchResult) : Bool :=
  r.failed == 0 && r.errors.isEmpty

/-- `PatchProfile` (src/patches/core.py 7-10). -/
inductive PatchProfile where
  | P3 | P7 | P9
deriving DecidableEq

/-- `SM_P` (src/patches/profiles.py 6-10). -/
def SM_P : List Rule := [
  .asgn "data->HighestShaderModel" "D3D_SHADER_MODEL_6_9" "sm69",
  .asgn "info.HighestShaderModel" "D3D_SHADER_MODEL_6_9" "sm69i",
  .asgn "MaxSupportedFeatureLevel" "D3D_FEATURE_LEVEL_12_2" "fl122"]

/-- `WV_P` (src/patches/profiles.py 12-17). -/
def WV_P : List Rule := [
  .asgn "options1.WaveOps" "TRUE" "wv0",
  .asgn "options1.WaveLaneCountMin" "32" "wv1",
  .asgn "options1.WaveLaneCountMax" "128" "wv2",
  .asgn "options9.WaveMMATier" "D3D12_WAVE_MMA_TIER_1_0" "wv3"]

/-- `RB_P` (src/patches/profiles.py 19-25). -/
def RB_P : List Rule := [
  .asgn "options.ResourceBindingTier" "D3D12_RESOURCE_BINDING_TIER_3" "rb0",
  .asgn "options.TiledResourcesTier" "D3D12_TILED_RESOURCES_TIER_4" "rb1",
  .asgn "options.ResourceHeapTier" "D3D12_RESOURCE_HEAP_TIER_2" "rb2",
  .asgn "options19.MaxSamplerDescriptorHeapSize" "4096" "rb3",
  .asgn "options19.MaxViewDescriptorHeapSize" "1000000" "rb4"]

/-- `SO_P` (src/patches/profiles.py 27-34). -/
def SO_P : List Rule := [
  .asgn "options.DoublePrecisionFloatShaderOps" "TRUE" "so0",
  .asgn "options1.Int64ShaderOps" "TRUE" "so1",
  .asgn "options4.Native16BitShaderOpsSupported" "TRUE" "so2",
  .asgn "options9.AtomicInt64OnTypedResourceSupported" "TRUE" "so3",
  .asgn "options9.AtomicInt64OnGroupSharedSupported" "TRUE" "so4",
  .asgn "options11.AtomicInt64OnDescriptorHeapResourceSupported" "TRUE" "so5"]

/-- `MS_P` (src/patches/profiles.py 36-46). -/
def MS_P : List Rule := [
  .asgn "options7.MeshShaderTier" "D3D12_MESH_SHADER_TIER_1" "ms0",
  .asgn "options9.MeshShaderPipelineStatsSupported" "TRUE" "ms1",
  .asgn "options9.MeshShaderSupportsFullRangeRenderTargetArrayIndex" "TRUE" "ms2",
  .asgn "options9.DerivativesInMeshAndAmplificationShadersSupported" "TRUE" "ms3",
  .asgn "options10.MeshShaderPerPrimitiveShadingRateSupported" "TRUE" "ms4",
  .asgn "options21.ExecuteIndirectTier" "D3D12_EXECUTE_INDIRECT_TIER_1_1" "ms5",
  .asgn "options21.WorkGraphsTier" "D3D12_WORK_GRAPHS_TIER_1_0" "ms6",
  .asgn "options12.EnhancedBarriersSupported" "TRUE" "ms7",
  .asgn "options20.ComputeOnlyWriteWatchSupported" "TRUE" "ms8"]

/-- `RT_P` (src/patches/profiles.py 48-55). -/
def RT_P : List Rule := [
  .asgn "options5.RaytracingTier" "D3D12_RAYTRACING_TIER_1_1" "rt0",
  .asgn "options5.RenderPassesTier" "D3D12_RENDER_PASS_TIER_2" "rt1",
  .asgn "options6.VariableShadingRateTier" "D3D12_VARIABLE_SHADING_RATE_TIER_2" "rt2",
  .asgn "options6.ShadingRateImageTileSize" "8" "rt3",
  .asgn "options6.BackgroundProcessingSupported" "TRUE" "rt4",
  .asgn "options10.VariableRateShadingSumCombinerSupported" "TRUE" "rt5"]

/-- `SF_P` (src/patches/profiles.py 57-62). -/
def SF_P : List Rule := [
  .asgn "options7.SamplerFeedbackTier" "D3D12_SAMPLER_FEEDBACK_TIER_1_0" "sf0",
  .asgn "options2.DepthBoundsTestSupported" "TRUE" "sf1",
  .asgn "options14.AdvancedTextureOpsSupported" "TRUE" "sf2",
  .asgn "options14.WriteableMSAATexturesSupported" "TRUE" "sf3"]

/-- `TX_P` (src/patches/profiles.py 64-69). -/
def TX_P : List Rule := [
  .asgn "options8.UnalignedBlockTexturesSupported" "TRUE" "tx0",
  .asgn "options13.UnrestrictedBufferTextureCopyPitchSupported" "TRUE" "tx1",
  .asgn "options13.TextureCopyBetweenDimensionsSupported" "TRUE" "tx2",
  .asgn "options16.GPUUploadHeapSupported" "TRUE" "tx3"]

/-- `RN_P` (src/patches/profiles.py 71-80). -/
def RN_P : List Rule := [
  .asgn "options13.UnrestrictedVertexElementAlignmentSupported" "TRUE" "rn0",
  .asgn "options13.InvertedViewportHeightFlipsYSupported" "TRUE" "rn1",
  .asgn "options13.InvertedViewportDepthFlipsZSupported" "TRUE" "rn2",
  .asgn "options13.AlphaBlendFactorSupported" "TRUE" "rn3",
  .asgn "options15.TriangleFanSupported" "TRUE" "rn4",
  .asgn "options15.DynamicIndexBufferStripCutSupported" "TRUE" "rn5",
  .asgn "options19.RasterizerDesc2Supported" "TRUE" "rn6",
  .asgn "options19.NarrowQuadrilateralLinesSupported" "TRUE" "rn7"]

/-- `PF_P` (src/patches/profiles.py 82-86): each pattern is
`mk_def(macro) + r'\s+1'`, i.e. `#define\s+MACRO\s+\d+\s+1`. -/
def PF_P : List Rule := [
  .defR "VKD3D_DEBUG" true "#define VKD3D_DEBUG 0" "pf0",
  .defR "VKD3D_PROFILING" true "#define VKD3D_PROFILING 0" "pf1",
  .defR "VKD3D_SHADER_DEBUG" true "#define VKD3D_SHADER_DEBUG 0" "pf2"]

/-- `CP_P` (src/patches/profiles.py 88-93): raw patterns of the
`#define\s+MACRO\s+\d+` shape. -/
def CP_P : List Rule := [
  .defR "VKD3D_ENABLE_AVX" false "#define VKD3D_ENABLE_AVX 1" "cp0",
  .defR "VKD3D_ENABLE_AVX2" false "#define VKD3D_ENABLE_AVX2 1" "cp1",
  .defR "VKD3D_ENABLE_FMA" false "#define VKD3D_ENABLE_FMA 1" "cp2",
  .defR "VKD3D_ENABLE_SSE4_2" false "#define VKD3D_ENABLE_SSE4_2 1" "cp3"]

/-- `V3XPatcher._get_patches` (src/patches/patcher.py 35-44), including the
final fallback `return base` (unreachable for the three enum values). -/
def getPatches (p : PatchProfile) : List (List Rule) :=
  let base := [SM_P, WV_P, RB_P, SO_P]
  if p = PatchProfile.P3 then base
  else
    let ext := [MS_P, RT_P, SF_P, TX_P]
    if p = PatchProfile.P7 then base ++ ext
    else if p = PatchProfile.P9 then base ++ ext ++ [RN_P]
    else base

/-- The file system as seen by `_apply_file`: a map from paths to contents;
`none` models a path for which `os.path.exists` is false. -/
def FS : Type := String → Option (List Char)

/-- Writing a file: update one path's content. -/
def fsUpdate (fs : FS) (fp : String) (c : List Char) : FS :=
  fun q => if q = fp then some c else fs q

/-- `os.path.basename` for the paths handled here. -/
def basename (fp : String) : String :=
  (fp.splitOn "/").getLastD fp

/-- `V3XPatcher._apply_file` (src/patches/patcher.py 65-86): return
unchanged if the path does not exist; otherwise read, apply the rules,
accumulate applied/skipped, append a detail record when there are changes,
and write back only when the content changed and the run is not a dry run.
Read and write failures are not modelled (reads of existing paths and
writes succeed in this model). -/
def applyFile (dry : Bool) (fs : FS) (res : PatchResult) (fp : String)
    (rules : List Rule) : FS × PatchResult :=
  match fs fp with
  | none => (fs, res)
  | some content =>
    let out := applyContent dry content rules
    let res1 : PatchResult :=
      { res with
        applied := res.applied + out.applied
        skipped := res.skipped + out.skipped }
    let res2 : PatchResult :=
      if out.changes.isEmpty then res1
      else { res1 with
             details := res1.details ++ [{ f := basename fp, p := fp, ch := out.changes }] }
    if out.text ≠ content ∧ dry = false then (fsUpdate fs fp out.text, res2)
    else (fs, res2)

/-- The exit value of `main` (src/patches/patcher.py 164-190): `1` when the
source directory does not exist, otherwise `0` iff the run's result is a
success. -/
def mainExit (srcIsDir : Bool) (result : PatchResult) : Nat :=
  if srcIsDir = false then 1
  else if result.success = true then 0 else 1

/-- The `choices` list of the `--profile` argument of `V3XPatcher`'s CLI
(src/patches/patcher.py 169). -/
def v3xChoices : List String := ["p3", "p7", "p9"]

/-- Profile-string resolution at the `V3XPatcher` CLI boundary
(src/patches/patcher.py 169 and 181): argparse rejects any string outside
`choices`, and the `pm` table maps the accepted strings to enum values. -/
def v3xParseProfile (s : String) : Option PatchProfile :=
  if s = "p3" then some PatchProfile.P3
  else if s = "p7" then some PatchProfile.P7
  else if s = "p9" then some PatchProfile.P9
  else none

/-- The rule triples of src/scripts/patcher.py (`PT = Tuple[str, str, str]`):
pattern, replacement, name, kept as literal strings because the claims about
that script concern only which groups are selected. -/
def PT : Type := String × String × String

/-- `GPU_P` (src/scripts/patcher.py 21-27); the `mk_asgn` of that script is
the plain `(\bvar\s*=\s*)([^;]+);` shape, shown here fully expanded. -/
def vkGPU_P : List PT := [
  ("(\\badapter_id\\.vendor_id\\s*=\\s*)([^;]+);", "\\g<1>0x1002;", "gpu_vid"),
  ("(\\badapter_id\\.device_id\\s*=\\s*)([^;]+);", "\\g<1>0x73DF;", "gpu_did"),
  ("(VendorId\\s*=\\s*)[^;]+;", "\\g<1>0x1002;", "gpu_vid2"),
  ("(DeviceId\\s*=\\s*)[^;]+;", "\\g<1>0x73DF;", "gpu_did2"),
  ("(SharedSystemMemory\\s*=\\s*)[^;]+;", "\\g<1>16384ULL * 1024 * 1024;", "gpu_mem")]

/-- `SM_P` of src/scripts/patcher.py (lines 29-32). -/
def vkSM_P : List PT := [
  ("(\\bdata\\->HighestShaderModel\\s*=\\s*)([^;]+);", "\\g<1>D3D_SHADER_MODEL_6_8;", "sm"),
  ("(\\binfo\\.HighestShaderModel\\s*=\\s*)([^;]+);", "\\g<1>D3D_SHADER_MODEL_6_8;", "sm_info")]

/-- `WV_P` of src/scripts/patcher.py (lines 34-38). -/
def vkWV_P : List PT := [
  ("(\\boptions1\\.WaveOps\\s*=\\s*)([^;]+);", "\\g<1>TRUE;", "wv0"),
  ("(\\boptions1\\.WaveLaneCountMin\\s*=\\s*)([^;]+);", "\\g<1>32;", "wv1"),
  ("(\\boptions1\\.WaveLaneCountMax\\s*=\\s*)([^;]+);", "\\g<1>128;", "wv2")]

/-- `RB_P` of src/scripts/patcher.py (lines 40-44). -/
def vkRB_P : List PT := [
  ("(\\boptions\\.ResourceBindingTier\\s*=\\s*)([^;]+);", "\\g<1>D3D12_RESOURCE_BINDING_TIER_3;", "rb0"),
  ("(\\boptions\\.TiledResourcesTier\\s*=\\s*)([^;]+);", "\\g<1>D3D12_TILED_RESOURCES_TIER_4;", "rb1"),
  ("(\\boptions\\.ResourceHeapTier\\s*=\\s*)([^;]+);", "\\g<1>D3D12_RESOURCE_HEAP_TIER_2;", "rb2")]

/-- `SO_P` of src/scripts/patcher.py (lines 46-50). -/
def vkSO_P : List PT := [
  ("(\\boptions\\.DoublePrecisionFloatShaderOps\\s*=\\s*)([^;]+);", "\\g<1>TRUE;", "so0"),
  ("(\\boptions1\\.Int64ShaderOps\\s*=\\s*)([^;]+);", "\\g<1>TRUE;", "so1"),
  ("(\\boptions4\\.Native16BitShaderOpsSupported\\s*=\\s*)([^;]+);", "\\g<1>TRUE;", "so2")]

/-- `MS_P` of src/scripts/patcher.py (lines 52-55). -/
def vkMS_P : List PT := [
  ("(\\boptions7\\.MeshShaderTier\\s*=\\s*)([^;]+);", "\\g<1>D3D12_MESH_SHADER_TIER_1;", "ms0"),
  ("(\\boptions12\\.EnhancedBarriersSupported\\s*=\\s*)([^;]+);", "\\g<1>TRUE;", "ms7")]

/-- `RT_P` of src/scripts/patcher.py (lines 57-63). -/
def vkRT_P : List PT := [
  ("(\\boptions5\\.RaytracingTier\\s*=\\s*)([^;]+);", "\\g<1>D3D12_RAYTRACING_TIER_1_1;", "rt0"),
  ("(\\boptions5\\.RenderPassesTier\\s*=\\s*)([^;]+);", "\\g<1>D3D12_RENDER_PASS_TIER_2;", "rt1"),
  ("(\\boptions6\\.VariableShadingRateTier\\s*=\\s*)([^;]+);", "\\g<1>D3D12_VARIABLE_SHADING_RATE_TIER_2;", "rt2"),
  ("(\\boptions6\\.ShadingRateImageTileSize\\s*=\\s*)([^;]+);", "\\g<1>8;", "rt3"),
  ("(\\boptions6\\.BackgroundProcessingSupported\\s*=\\s*)([^;]+);", "\\g<1>TRUE;", "rt4")]

/-- `SF_P` of src/scripts/patcher.py (lines 65-68). -/
def vkSF_P : List PT := [
  ("(\\boptions7\\.SamplerFeedbackTier\\s*=\\s*)([^;]+);", "\\g<1>D3D12_SAMPLER_FEEDBACK_TIER_1_0;", "sf0"),
  ("(\\boptions2\\.DepthBoundsTestSupported\\s*=\\s*)([^;]+);", "\\g<1>TRUE;", "sf1")]

/-- `TX_P` of src/scripts/patcher.py (lines 70-72). -/
def vkTX_P : List PT := [
  ("(\\boptions8\\.UnalignedBlockTexturesSupported\\s*=\\s*)([^;]+);", "\\g<1>TRUE;", "tx0")]

/-- `RN_P` of src/scripts/patcher.py (lines 74-76). -/
def vkRN_P : List PT := [
  ("(\\boptions15\\.TriangleFanSupported\\s*=\\s*)([^;]+);", "\\g<1>TRUE;", "rn4")]

/-- `Vkd3dPatcher._get_patches` (src/scripts/patcher.py 96-105): a lookup
over the profile string with a silent `return base` fallback for any
unrecognized string. -/
def vkGetPatches (profile : String) : List (List PT) :=
  let base := [vkSM_P, vkWV_P, vkRB_P, vkSO_P]
  let ext := [vkMS_P, vkRT_P, vkSF_P, vkTX_P, vkRN_P]
  if profile = "p3" then base
  else if profile = "p7" ∨ profile = "p9" then base ++ ext
  else if profile = "high" then base ++ ext ++ [vkGPU_P]
  else base

/-- The `choices` list of the `--profile` argument of the script's CLI
(src/scripts/patcher.py 185). -/
def vkChoices : List String := ["p3", "p7", "p9", "high"]

/-- Profile-string acceptance at the script's CLI boundary: argparse
rejects (exits non-zero, before any file I/O) any string outside the
`choices` list and passes accepted strings through unchanged. -/
def vkParseProfile (s : String) : Option String :=
  if s ∈ vkChoices then some s else none

/-- `[]` is a prefix of everything; `l` is a prefix of `l ++ t`. -/
theorem isPrefixOf_self_append (a b : List Char) : a.isPrefixOf (a ++ b) = true := by
  simp

/-- A greedy whitespace run stops exactly at the first non-whitespace
character. -/
theorem splitRun_ws_exact (ws1 : List Char) (c : Char) (t : List Char)
    (hws : ∀ x ∈ ws1, pyWs x = true) (hc : pyWs c = false) :
    splitRun pyWs (ws1 ++ c :: t) = (ws1, c :: t) := by
  induction ws1 with
  | nil => simp [splitRun, hc]
  | cons a as ih =>
    have ha : pyWs a = true := hws a (by simp)
    have ih2 := ih (fun x hx => hws x (by simp [hx]))
    simp [splitRun, ha, ih2]

/-- Claim C1 (counterexample): `applied + skipped` can exceed the number of
rules, because `applied` accumulates match counts, not matched rules.  On a
content in which the first `SM_P` rule matches twice, `_apply_content`
returns `applied = 2` and `skipped = 2` while the group has 3 rules. -/
theorem count_conservation_counterexample :
    (applyContent false "data->HighestShaderModel = 1;\ndata->HighestShaderModel = 2;".data SM_P).applied
      + (applyContent false "data->HighestShaderModel = 1;\ndata->HighestShaderModel = 2;".data SM_P).skipped
      ≠ SM_P.length := by
  decide

/-- Claim C1 (amended): for every input content and rule sequence, the
number of change records (rules that matched) plus the skipped count equals
the total number of rule invocations; the applied count instead accumulates
per-rule match counts, so the claimed `applied + skipped` identity holds
only when every matching rule matches exactly once. -/
theorem count_conservation_amended (dry : Bool) (rules : List Rule) :
    ∀ content : List Char,
      (applyContent dry content rules).changes.length
        + (applyContent dry content rules).skipped = rules.length := by
  induction rules with
  | nil => intro c; rfl
  | cons r rs ih =>
    intro c
    by_cases h : 0 < (scanRule r c).1
    · have := ih (if dry then c else (scanRule r c).2)
      simp [applyContent, h]
      omega
    · have := ih c
      simp [applyContent, h]
      omega

/-- Claim C2 (code bug): the `PF_P` patterns are built as
`mk_def(macro) + r'\s+1'`, i.e. `#define\s+MACRO\s+\d+\s+1`, which (i) never
matches the canonical debug line `#define VKD3D_DEBUG 1` that the rules are
meant to rewrite, and (ii) makes repeated runs of the engine on a file
containing `#define VKD3D_DEBUG 1 1 1` not write-idempotent: the first run
produces `#define VKD3D_DEBUG 0 1` and a second run rewrites that again to
`#define VKD3D_DEBUG 0`, contradicting the claimed byte-idempotence of a
second application. -/
theorem perf_define_rules_bug :
    (applyContent false "#define VKD3D_DEBUG 1".data PF_P).applied = 0 ∧
    (applyContent false
        ((applyContent false "#define VKD3D_DEBUG 1 1 1".data PF_P).text) PF_P).text
      ≠ (applyContent false "#define VKD3D_DEBUG 1 1 1".data PF_P).text := by
  constructor
  · decide
  · decide

/-- Claim C3 (confirmed): with the dry-run flag set, `_apply_file` never
writes: the file system is returned unchanged whatever the path, the rules
and the computed match counts. -/
theorem dry_run_preserves_fs (fs : FS) (res : PatchResult) (fp : String)
    (rules : List Rule) :
    (applyFile true fs res fp rules).1 = fs := by
  unfold applyFile
  rcases h : fs fp with _ | content <;> simp [h]

/-- Claim C4 (counterexample): dry-run bookkeeping is not identical to a
normal run.  On `data->HighestShaderModel = info.HighestShaderModel = 3;`
the non-dry run rewrites the whole statement with the first `SM_P` rule, so
the second rule no longer matches (`applied = 1`), while the dry run
matches every rule against the original content (`applied = 2`). -/
theorem dry_run_bookkeeping_counterexample :
    (applyContent true "data->HighestShaderModel = info.HighestShaderModel = 3;".data SM_P).applied
      ≠ (applyContent false "data->HighestShaderModel = info.HighestShaderModel = 3;".data SM_P).applied := by
  decide

/-- Claim C4 (amended): a dry run returns the input content unchanged (the
transformation is not even computed into the returned content), and for a
single rule the applied/skipped/change bookkeeping of a dry run equals that
of a normal run; with several rules the counts may differ, because a normal
run matches each later rule against content already rewritten by earlier
rules while a dry run matches every rule against the original content. -/
theorem dry_run_bookkeeping_amended :
    (∀ (rules : List Rule) (content : List Char),
        (applyContent true content rules).text = content) ∧
    (∀ (r : Rule) (content : List Char),
        (applyContent true content [r]).applied = (applyContent false content [r]).applied ∧
        (applyContent true content [r]).skipped = (applyContent false content [r]).skipped ∧
        (applyContent true content [r]).changes = (applyContent false content [r]).changes) := by
  constructor
  · intro rules
    induction rules with
    | nil => intro c; rfl
    | cons r rs ih =>
      intro c
      by_cases h : 0 < (scanRule r c).1 <;> simp [applyContent, h, ih]
  · intro r c
    by_cases h : 0 < (scanRule r c).1 <;> simp [applyContent, h]

/-- Claim C5 (confirmed): `PatchResult.merge` is associative, commutative
in the three counters, commutative up to permutation in the error and
warning lists, and each operand's sequence is preserved in order inside the
merged sequence. -/
theorem merge_algebra (a b c : PatchResult) :
    (a.merge b).merge c = a.merge (b.merge c) ∧
    (a.merge b).applied = (b.merge a).applied ∧
    (a.merge b).skipped = (b.merge a).skipped ∧
    (a.merge b).failed = (b.merge a).failed ∧
    List.Perm (a.merge b).errors (b.merge a).errors ∧
    List.Perm (a.merge b).warnings (b.merge a).warnings ∧
    List.Sublist a.errors (a.merge b).errors ∧
    List.Sublist b.errors (a.merge b).errors := by
  refine ⟨?_, ?_, ?_, ?_, ?_, ?_, ?_, ?_⟩
  · simp [PatchResult.merge, Nat.add_assoc]
  · simp [PatchResult.merge, Nat.add_comm]
  · simp [PatchResult.merge, Nat.add_comm]
  · simp [PatchResult.merge, Nat.add_comm]
  · simp only [PatchResult.merge]
    exact List.perm_append_comm
  · simp only [PatchResult.merge]
    exact List.perm_append_comm
  · simp only [PatchResult.merge]
    exact List.sublist_append_left _ _
  · simp only [PatchResult.merge]
    exact List.sublist_append_right _ _

/-- Claim C6 (confirmed): a result is a success iff no failure was counted
and no error was recorded, and (when the source directory exists, so the
run reaches the engine) `main` exits 0 iff the result is a success. -/
theorem success_and_exit_code :
    (∀ r : PatchResult, r.success = true ↔ (r.failed = 0 ∧ r.errors = [])) ∧
    (∀ (b : Bool) (r : PatchResult), b = true → (mainExit b r = 0 ↔ r.success = true)) := by
  constructor
  · intro r
    simp [PatchResult.success, List.isEmpty_iff]
  · intro b r hb
    subst hb
    rcases hs : r.success <;> simp [mainExit, hs]

theorem success_and_exit_code_witness :
    (true = true) ∧
    (mainExit true (⟨0, 0, 0, [], [], []⟩ : PatchResult) = 0
      ↔ PatchResult.success (⟨0, 0, 0, [], [], []⟩ : PatchResult) = true) :=
  ⟨rfl, success_and_exit_code.2 true _ rfl⟩

/-- Claim C7 (confirmed): profile resolution is monotone: the p7 list is the
p3 list extended with the four extra groups, the p9 list is the p7 list
extended with `RN_P`, and each lower tier's group list is a sublist (hence
its group set a subset) of every higher tier's. -/
theorem profile_monotonicity :
    getPatches PatchProfile.P7 = getPatches PatchProfile.P3 ++ [MS_P, RT_P, SF_P, TX_P] ∧
    getPatches PatchProfile.P9 = getPatches PatchProfile.P7 ++ [RN_P] ∧
    List.Sublist (getPatches PatchProfile.P3) (getPatches PatchProfile.P7) ∧
    List.Sublist (getPatches PatchProfile.P7) (getPatches PatchProfile.P9) ∧
    List.Sublist (getPatches PatchProfile.P3) (getPatches PatchProfile.P9) := by
  refine ⟨rfl, rfl, ?_, ?_, ?_⟩
  · exact List.sublist_append_left _ _
  · exact List.sublist_append_left _ _
  · exact (List.sublist_append_left _ _).trans (List.sublist_append_left _ _)

/-- Claim C10 (confirmed): when the path does not exist, `_apply_file`
returns the file system and the accumulated result unchanged and records no
error. -/
theorem missing_path_noop (dry : Bool) (fs : FS) (res : PatchResult) (fp : String)
    (rules : List Rule) (h : fs fp = none) :
    applyFile dry fs res fp rules = (fs, res) := by
  unfold applyFile
  rw [h]

theorem missing_path_noop_witness :
    ((fun _ => none : FS) "libs/vkd3d/device.c" = none) ∧
    applyFile false (fun _ => none) (⟨0, 0, 0, [], [], []⟩ : PatchResult)
        "libs/vkd3d/device.c" SM_P
      = ((fun _ => none : FS), (⟨0, 0, 0, [], [], []⟩ : PatchResult)) :=
  ⟨rfl, missing_path_noop false _ _ _ _ rfl⟩

/-- Claim C8 (counterexample): resolution of an unrecognized tier does not
fail: `Vkd3dPatcher._get_patches` silently returns the base list for the
unrecognized profile string `"p5"`, the same (smaller) group list as the
lowest tier `"p3"`, recording no error. -/
theorem unknown_profile_counterexample :
    vkGetPatches "p5" = vkGetPatches "p3" ∧
    (vkGetPatches "p5").length < (vkGetPatches "high").length := by
  constructor
  · rfl
  · decide

/-- Claim C8 (amended): unrecognized tier identifiers are rejected at the
command line, before any file I/O, by the closed `choices` lists of both
CLIs; the resolution function itself does not fail, however:
`Vkd3dPatcher._get_patches` silently falls back to the base group list for
any unrecognized profile string (while `V3XPatcher`'s profile is a closed
enum, so no unrecognized value can reach its table). -/
theorem unknown_profile_amended :
    (∀ s : String, s ∉ v3xChoices → v3xParseProfile s = none) ∧
    (∀ s : String, s ∉ vkChoices → vkParseProfile s = none) ∧
    (∀ s : String, s ∉ vkChoices → vkGetPatches s = [vkSM_P, vkWV_P, vkRB_P, vkSO_P]) := by
  refine ⟨?_, ?_, ?_⟩
  · intro s hs
    simp [v3xChoices] at hs
    simp [v3xParseProfile, hs.1, hs.2.1, hs.2.2]
  · intro s hs
    simp [vkParseProfile, hs]
  · intro s hs
    simp [vkChoices] at hs
    obtain ⟨h3, h7, h9, hh⟩ := hs
    simp [vkGetPatches, h3, h7, h9, hh]

theorem unknown_profile_amended_witness :
    ("p5" ∉ v3xChoices) ∧ ("p5" ∉ vkChoices) ∧
    v3xParseProfile "p5" = none ∧ vkParseProfile "p5" = none ∧
    vkGetPatches "p5" = [vkSM_P, vkWV_P, vkRB_P, vkSO_P] :=
  ⟨by decide, by decide,
   unknown_profile_amended.1 "p5" (by decide),
   unknown_profile_amended.2.1 "p5" (by decide),
   unknown_profile_amended.2.2 "p5" (by decide)⟩

/-- Claim C9 (confirmed): a pattern built by `mk_asgn` never matches at a
site whose immediately preceding character is `=`, `!`, `<` or `>` (the
negative lookbehind), never matches when the `=` after the variable is
immediately followed by another `=` (a `==` comparison), and consequently
the `SM_P` rules leave a content consisting of such comparison expressions
byte-for-byte unchanged. -/
theorem mk_asgn_comparison_safety :
    (∀ (var s : List Char) (c : Char),
        (c = '=' ∨ c = '!' ∨ c = '<' ∨ c = '>') → asgnTry var (some c) s = none) ∧
    (∀ (var ws1 rest : List Char) (prev : Option Char),
        (∀ x ∈ ws1, pyWs x = true) →
        asgnTry var prev (var ++ ws1 ++ '=' :: '=' :: rest) = none) ∧
    ((applyContent false "q=MaxSupportedFeatureLevel = 0; if (data->HighestShaderModel == D3D_SHADER_MODEL_6_0) run;".data SM_P).text
        = "q=MaxSupportedFeatureLevel = 0; if (data->HighestShaderModel == D3D_SHADER_MODEL_6_0) run;".data ∧
      (applyContent false "q=MaxSupportedFeatureLevel = 0; if (data->HighestShaderModel == D3D_SHADER_MODEL_6_0) run;".data SM_P).applied = 0) := by
  refine ⟨?_, ?_, by decide, by decide⟩
  · intro var s c hc
    unfold asgnTry
    rcases hc with h | h | h | h <;> subst h <;> rfl
  · intro var ws1 rest prev hws
    unfold asgnTry
    by_cases h1 : (prev.any fun c => c == '=' || c == '!' || c == '<' || c == '>') = true
    · simp [h1]
    · by_cases h2 : prev.any pyWord = true
      · simp [h1, h2]
      · have hpre : var.isPrefixOf (var ++ (ws1 ++ '=' :: '=' :: rest)) = true :=
          isPrefixOf_self_append _ _
        have hdrop : (var ++ (ws1 ++ '=' :: '=' :: rest)).drop var.length
            = ws1 ++ '=' :: '=' :: rest := List.drop_left _ _
        have hsplit : splitRun pyWs (ws1 ++ '=' :: '=' :: rest) = (ws1, '=' :: '=' :: rest) :=
          splitRun_ws_exact ws1 '=' ('=' :: rest) hws rfl
        have hsplit2 : splitRun pyWs ('=' :: rest) = ([], '=' :: rest) := by
          simp [splitRun]
          rfl
        simp [h1, h2, hpre, hdrop, hsplit, hsplit2]

theorem mk_asgn_comparison_safety_witness :
    ('=' = '=' ∨ '=' = '!' ∨ '=' = '<' ∨ '=' = '>') ∧
    asgnTry "MaxSupportedFeatureLevel".data (some '=') " = 0;".data = none ∧
    (∀ x ∈ [' '], pyWs x = true) ∧
    asgnTry "v".data none ("v".data ++ [' '] ++ '=' :: '=' :: " 5;".data) = none :=
  ⟨Or.inl rfl,
   mk_asgn_comparison_safety.1 "MaxSupportedFeatureLevel".data " = 0;".data '=' (Or.inl rfl),
   by decide,
   mk_asgn_comparison_safety.2.1 "v".data [' '] " 5;".data none (by decide)⟩
